import Mathlib

/-
Verification of the EliteEmailAutomator server against its natural-language
specification.  The development shallowly embeds the relevant route handlers
of src/server/routes.ts (contact upload, campaign dispatch, AI-message
post-processing) and the image-generation job tracker of the lazy-init
routes file, together with the in-memory storage class (MemStorage).

Texts (message bodies, subjects, names) are embedded as List Char so that
JavaScript string primitives (substring, lastIndexOf, replace with a global
regex, regex test) can be modelled exactly.  Identifiers, statuses and error
messages are embedded as Lean String.
-/

namespace EliteEmail

/-- JavaScript a || b for an optional string field: undefined and the empty
string are falsy, so the default is used for both. -/
def jsOrS (a : Option String) (b : String) : String :=
  match a with
  | none => b
  | some s => if s = "" then b else s

/-- JavaScript a || b where both operands are optional string fields. -/
def jsOrO (a : Option String) (b : Option String) : Option String :=
  match a with
  | none => b
  | some s => if s = "" then b else some s

/-- Character-class test for the whitespace characters recognised by the
JavaScript regex class backslash-s (the ASCII ones; the exotic Unicode
space code points do not occur in any input considered here). -/
def isJsSpace (c : Char) : Bool :=
  c = ' ' || c = '\t' || c = '\n' || c = '\r' || c = '\x0b' || c = '\x0c'

/-- Index of the last occurrence of the space character, -1 when absent:
JavaScript String.prototype.lastIndexOf applied to a single space. -/
def lastIndexOfSpace : List Char → Int
  | [] => -1
  | c :: rest =>
    let r := lastIndexOfSpace rest
    if r = -1 then (if c = ' ' then 0 else -1) else r + 1

/-- JavaScript s.substring(0, e): a negative end index is clamped to 0 and an
end index beyond the length is clamped to the length, which is exactly
List.take after Int.toNat. -/
def jsSubstringTo (s : List Char) (e : Int) : List Char :=
  s.take e.toNat

/-- Decidable substring containment used to embed regex alternatives that are
plain literals (the message is lowercased first, so matching is
case-insensitive as with the i flag). -/
def containsSub (pat : List Char) : List Char → Bool
  | [] => pat.isEmpty
  | c :: rest => pat.isPrefixOf (c :: rest) || containsSub pat rest

/-- Matcher for the regex fragment a.?b: some position starts with a,
followed either directly by b or by one character that is not a newline
(the dot of a JavaScript regex without the s flag never matches a newline)
and then b. -/
def containsGap (a b : List Char) : List Char → Bool
  | [] => a.isPrefixOf [] && b.isPrefixOf []
  | c :: rest =>
    (a.isPrefixOf (c :: rest) &&
      (b.isPrefixOf ((c :: rest).drop a.length) ||
        (match (c :: rest).drop a.length with
         | [] => false
         | d :: r2 => d ≠ '\n' && b.isPrefixOf r2)))
    || containsGap a b rest

/-- Word counter of the route: finalMessage.split on one-or-more whitespace,
keeping only the nonempty tokens, i.e. the number of maximal runs of
non-whitespace characters. -/
def wordCountJs (s : List Char) : Nat :=
  match s with
  | [] => 0
  | c :: rest =>
    let n := wordCountJs rest
    if isJsSpace c then n
    else match rest with
      | [] => 1
      | d :: _ => if isJsSpace d then n + 1 else n

/-! AI-message post-processing, from POST /api/ai-message in
src/server/routes.ts (the block commented ADD THIS BLOCK TO ENFORCE
CHARACTER LIMITS, followed by the compliance probes). -/

/-- Channel cap chosen by the route: 160 for sms, 1100 otherwise. -/
def channelLimit (messageType : String) : Nat :=
  if messageType = "sms" then 160 else 1100

/-- Ellipsis marker appended by the truncation block. -/
def ellipsisMarker : List Char := ['.', '.', '.']

/-- Truncation block of POST /api/ai-message: when the generated message
exceeds the cap, take the first limit characters, cut back to the last
space (JavaScript lastIndexOf yields -1 when there is no space, and
substring(0, -1) yields the empty string), and append the ellipsis. -/
def enforceLimit (limit : Nat) (msg : List Char) : List Char :=
  if msg.length > limit then
    let truncated := msg.take limit
    let truncated2 :=
      jsSubstringTo truncated (min (truncated.length : Int) (lastIndexOfSpace truncated))
    truncated2 ++ ellipsisMarker
  else msg

/-- Compliance probe results of POST /api/ai-message. -/
structure ComplianceVector where
  hasOptOut : Bool
  hasBusinessName : Bool
  hasCTA : Bool
  withinLimit : Bool
  hasLocation : Bool
deriving DecidableEq, Repr

/-- Conjunction computed by the route:
isCompliant = hasOptOut && hasBusinessName && hasCTA && withinLimit && hasLocation. -/
def overallCompliance (a b c d e : Bool) : Bool :=
  a && b && c && d && e

/-- Probe for /stop|opt.?out|unsubscribe/i on the final message. -/
def probeOptOut (low : List Char) : Bool :=
  containsSub ['s','t','o','p'] low
  || containsGap ['o','p','t'] ['o','u','t'] low
  || containsSub ['u','n','s','u','b','s','c','r','i','b','e'] low

/-- Probe for /elite.?iit/i on the final message. -/
def probeBusinessName (low : List Char) : Bool :=
  containsGap ['e','l','i','t','e'] ['i','i','t'] low

/-- Probe for /call|contact|visit|reply|click|join/i on the final message. -/
def probeCTA (low : List Char) : Bool :=
  containsSub ['c','a','l','l'] low
  || containsSub ['c','o','n','t','a','c','t'] low
  || containsSub ['v','i','s','i','t'] low
  || containsSub ['r','e','p','l','y'] low
  || containsSub ['c','l','i','c','k'] low
  || containsSub ['j','o','i','n'] low

/-- Probe for /yelahanka|bangalore/i on the final message. -/
def probeLocation (low : List Char) : Bool :=
  containsSub ['y','e','l','a','h','a','n','k','a'] low
  || containsSub ['b','a','n','g','a','l','o','r','e'] low

/-- Length probe of the route: characterCount at most 160 for sms else at
most 250 (the route uses a tighter WhatsApp bound here than the 1100
truncation cap). -/
def probeWithinLimit (messageType : String) (characterCount : Nat) : Bool :=
  if messageType = "sms" then characterCount ≤ 160 else characterCount ≤ 250

/-- Compliance vector of the route, computed on the post-truncation message
with case-insensitive regex probes (modelled by lowercasing first). -/
def complianceOf (messageType : String) (finalMessage : List Char) : ComplianceVector :=
  let low := finalMessage.map Char.toLower
  { hasOptOut := probeOptOut low
    hasBusinessName := probeBusinessName low
    hasCTA := probeCTA low
    withinLimit := probeWithinLimit messageType finalMessage.length
    hasLocation := probeLocation low }

/-- Stored AiMessage fields produced by POST /api/ai-message (the id and
creation time added by MemStorage.createAiMessage carry no logic). -/
structure AiMessageRecord where
  messageType : String
  generatedMessage : List Char
  characterCount : Nat
  wordCount : Nat
  isCompliant : Bool
deriving DecidableEq, Repr

/-- Post-processing pipeline of POST /api/ai-message applied to the raw
provider completion: truncation, counts, compliance probes, stored record. -/
def postProcess (messageType : String) (generated : List Char) :
    AiMessageRecord × ComplianceVector :=
  let finalMessage := enforceLimit (channelLimit messageType) generated
  let v := complianceOf messageType finalMessage
  ({ messageType := messageType
     generatedMessage := finalMessage
     characterCount := finalMessage.length
     wordCount := wordCountJs finalMessage
     isCompliant :=
       overallCompliance v.hasOptOut v.hasBusinessName v.hasCTA v.withinLimit v.hasLocation },
   v)

/-! Placeholder substitution, from the dispatch loop of
POST /api/campaigns/:id/send: message.replace of the global regex matching
the literal placeholder token with the recipient name.  A JavaScript global
replace scans left to right, consumes each match and never rescans the
replacement text. -/

/-- Literal placeholder token matched by the regex. -/
def nameToken : List Char := ['{', 'n', 'a', 'm', 'e', '}']

/-- ECMAScript GetSubstitution applied to one match of the placeholder
regex: the replacement string is scanned for dollar patterns, with the
dollar-dollar pair giving a literal dollar, dollar-ampersand giving the
matched text, dollar-backquote giving the part of the subject before the
match, dollar-apostrophe giving the part after the match (the two
delimiter characters are written by code point, 96 and 39), and any other
dollar left literally; the regex has no capture groups, so digit and
angle-bracket patterns also stay literal, which the catch-all covers. -/
def getSubstitution (matched str : List Char) (position : Nat) : List Char → List Char
  | '$' :: c :: rest =>
    if c = '$' then '$' :: getSubstitution matched str position rest
    else if c = '&' then matched ++ getSubstitution matched str position rest
    else if c = Char.ofNat 96 then
      str.take position ++ getSubstitution matched str position rest
    else if c = Char.ofNat 39 then
      str.drop (position + matched.length) ++ getSubstitution matched str position rest
    else '$' :: getSubstitution matched str position (c :: rest)
  | c :: rest => c :: getSubstitution matched str position rest
  | [] => []

/-- Left-to-right scan of a JavaScript global replace: each occurrence of
the token is consumed and replaced by the GetSubstitution expansion of the
replacement string at that match position (the subject str stays the full
original template); the expansion is never rescanned for further tokens. -/
def replaceScan (name str : List Char) : Nat → List Char → List Char
  | pos, '{' :: 'n' :: 'a' :: 'm' :: 'e' :: '}' :: rest =>
    getSubstitution nameToken str pos name ++ replaceScan name str (pos + 6) rest
  | pos, c :: rest => c :: replaceScan name str (pos + 1) rest
  | _, [] => []

/-- JavaScript template.replace(regex-for-the-token with the g flag, name),
with the full ECMAScript replacement-string semantics. -/
def replaceNamePlaceholder (name template : List Char) : List Char :=
  replaceScan name template 0 template

/-- Containment of the placeholder token as a contiguous substring. -/
def containsNameToken (l : List Char) : Bool :=
  containsSub nameToken l

/-! Data model of MemStorage (src/server/routes-serverless.ts and the
compiled storage module): in-memory maps holding contacts, campaigns and
email results, embedded as insertion-ordered lists keyed by id.  Random
UUIDs are embedded by a deterministic fresh-id generator; only their
uniqueness matters. -/

/-- Stored Contact record. -/
structure Contact where
  id : String
  name : List Char
  email : List Char
  isValid : Bool
  campaignId : Option String
deriving DecidableEq, Repr

/-- Contact fields supplied by the upload route before an id is assigned. -/
structure InsertContact where
  name : List Char
  email : List Char
  isValid : Bool
  campaignId : Option String
deriving DecidableEq, Repr

/-- Stored Campaign record (creation time omitted, it carries no logic). -/
structure Campaign where
  id : String
  subject : List Char
  message : List Char
  totalContacts : Nat
  sentCount : Nat
  failedCount : Nat
  status : String
deriving DecidableEq, Repr

/-- Stored EmailResult record (id and sent time omitted). -/
structure EmailResult where
  campaignId : String
  contactId : String
  email : List Char
  status : String
  error : Option String
deriving DecidableEq, Repr

/-- The in-memory store: the maps of MemStorage as insertion-ordered lists. -/
structure Store where
  contacts : List Contact
  campaigns : List Campaign
  emailResults : List EmailResult
deriving DecidableEq, Repr

/-- Empty store, the state of a freshly constructed MemStorage. -/
def Store.empty : Store := ⟨[], [], []⟩

/-- MemStorage.getCampaign: lookup by id. -/
def getCampaign (store : Store) (id : String) : Option Campaign :=
  store.campaigns.find? (fun c => c.id = id)

/-- MemStorage.updateCampaign with a given partial update, as the in-place
overwrite of the record with that id (a JavaScript Map.set on an existing
key keeps its position).  Call sites only update ids they have just
fetched, so the not-found throw of the source is unreachable here. -/
def updateCampaignFields (store : Store) (id : String) (f : Campaign → Campaign) : Store :=
  { store with campaigns := store.campaigns.map (fun c => if c.id = id then f c else c) }

/-- MemStorage.getContactsByCampaign: filter of the contact map values. -/
def getContactsByCampaign (store : Store) (id : String) : List Contact :=
  store.contacts.filter (fun c => c.campaignId = some id)

/-- MemStorage.updateContact as used by POST /api/campaigns: attach a
campaign id to the stored contact with the given id. -/
def updateContactCampaign (store : Store) (contactId campaignId : String) : Store :=
  let f := fun (c : Contact) =>
    if c.id = contactId then { c with campaignId := some campaignId } else c
  { store with contacts := store.contacts.map f }

/-- Deterministic stand-in for the random UUID given to the n-th contact. -/
def freshContactId (n : Nat) : String := "contact-" ++ toString n

/-- Deterministic stand-in for the random UUID given to the n-th campaign. -/
def freshCampaignId (n : Nat) : String := "campaign-" ++ toString n

/-- Id assignment inside MemStorage.createManyContacts. -/
def assignIds (base : Nat) : List InsertContact → List Contact
  | [] => []
  | i :: rest =>
    { id := freshContactId base, name := i.name, email := i.email,
      isValid := i.isValid, campaignId := i.campaignId } :: assignIds (base + 1) rest

/-- MemStorage.createManyContacts: assign ids, insert all into the contact
map, return the created records. -/
def createManyContacts (store : Store) (inserts : List InsertContact) :
    Store × List Contact :=
  let created := assignIds store.contacts.length inserts
  ({ store with contacts := store.contacts ++ created }, created)

/-! Email validity, from MemStorage.validateContacts: one anchored regex,
local-part at-sign domain dot tld, each part one or more characters that
are neither whitespace nor an at-sign. -/

/-- Character class of the email regex: anything but whitespace and @. -/
def emailClassOk (c : Char) : Bool := !(c = '@' || isJsSpace c)

/-- Test that the part after the at-sign contains a dot with nonempty text
on both sides, as required by the tail of the anchored email regex. -/
def innerDotOk (b : List Char) : Bool :=
  (List.range b.length).any (fun i => b.getD i ' ' = '.' && 0 < i && i + 1 < b.length)

/-- The fixed email-shape regex of MemStorage.validateContacts, anchored at
both ends: it accepts exactly the strings with a single at-sign, a nonempty
local part, and a domain part containing an inner dot, all characters
outside whitespace and at-sign. -/
def emailRegexTest (s : List Char) : Bool :=
  match s.splitOn '@' with
  | [a, b] => !a.isEmpty && a.all emailClassOk && b.all emailClassOk && innerDotOk b
  | _ => false

/-- MemStorage.validateContacts: a pure map producing fresh contact copies
carrying the computed validity flag; crucially it writes nothing back into
the contact map. -/
def validateContacts (contacts : List Contact) : List Contact :=
  contacts.map (fun c => { c with isValid := emailRegexTest c.email })

/-! Contact upload, from POST /api/upload-contacts in src/server/routes.ts.
The spreadsheet library is out of scope: the embedding starts from the
parsed sheet, a list of rows, each row the key-value pairs produced for its
non-empty cells. -/

/-- Parsed spreadsheet row: header-to-cell-text pairs. -/
abbrev Row := List (String × String)

/-- JavaScript key-in-object test on a parsed row. -/
def rowHasKey (k : String) (r : Row) : Bool :=
  r.any (fun p => p.1 = k)

/-- Field access row.k, none when the key is absent. -/
def rowGet (k : String) (r : Row) : Option String :=
  (r.find? (fun p => p.1 = k)).map (fun p => p.2)

/-- Failure modes of the upload route: FormatError for a sheet with zero
data rows (400 File is empty), SchemaError for missing required columns
(400 Required columns missing). -/
inductive UploadError
  | formatError
  | schemaError
deriving DecidableEq, Repr

/-- Success payload of the upload route (the ten-row preview is the prefix
of the validated copies and carries no further logic). -/
structure UploadResult where
  total : Nat
  valid : Nat
  invalid : Nat
  contactIds : List String
deriving DecidableEq, Repr

/-- Row-to-contact mapping of the route: row.Name or row.name or the empty
string (JavaScript falsy fallback, so an empty Name cell also falls
through), likewise for the email, campaignId null, isValid false. -/
def rowToInsert (r : Row) : InsertContact :=
  { name := (jsOrS (jsOrO (rowGet "Name" r) (rowGet "name" r)) "").toList
    email := (jsOrS (jsOrO (rowGet "Email" r) (rowGet "email" r)) "").toList
    isValid := false
    campaignId := none }

/-- POST /api/upload-contacts: reject an empty sheet, then require a Name or
name key and an Email or email key on the first row (exact spellings), then
bulk-insert one contact per row with isValid false and compute the summary
counts on fresh validated copies. -/
def uploadRoute (store : Store) (rows : List Row) :
    Store × Except UploadError UploadResult :=
  if rows.length = 0 then (store, Except.error UploadError.formatError)
  else
    let firstRow := rows.headD []
    let hasName := rowHasKey "Name" firstRow || rowHasKey "name" firstRow
    let hasEmail := rowHasKey "Email" firstRow || rowHasKey "email" firstRow
    if !hasName || !hasEmail then (store, Except.error UploadError.schemaError)
    else
      let inserts := rows.map rowToInsert
      let p := createManyContacts store inserts
      let validated := validateContacts p.2
      let validCount := (validated.filter (fun c => c.isValid)).length
      (p.1, Except.ok
        { total := validated.length
          valid := validCount
          invalid := validated.length - validCount
          contactIds := validated.map (fun c => c.id) })

/-- POST /api/campaigns: create the campaign record with zero counters and
status pending, then attach the campaign id to each listed contact. -/
def createCampaignRoute (store : Store) (subject message : List Char)
    (contactIds : List String) : Store × Campaign :=
  let camp : Campaign :=
    { id := freshCampaignId store.campaigns.length
      subject := subject
      message := message
      totalContacts := contactIds.length
      sentCount := 0
      failedCount := 0
      status := "pending" }
  let store2 := { store with campaigns := store.campaigns ++ [camp] }
  let store3 := contactIds.foldl (fun st cid => updateContactCampaign st cid camp.id) store2
  (store3, camp)

/-! Campaign dispatch, from POST /api/campaigns/:id/send.  The provider is
external: the environment is a function giving, for each loop index and the
personalized subject and message passed to the provider, either success or
the thrown error message.  The fixed 100 ms inter-send delay has no state
effect and is not modelled. -/

/-- Responses of the dispatch route. -/
inductive SendResponse
  | notFound
  | notConfigured
  | ok (sentCount failedCount total : Nat)
deriving DecidableEq, Repr

/-- EmailResult written for one recipient: status sent on success, status
failed with the captured provider message on failure. -/
def mkEmailResult (campaignId : String) (c : Contact) (outcome : Option String) :
    EmailResult :=
  match outcome with
  | none =>
    { campaignId := campaignId, contactId := c.id, email := c.email,
      status := "sent", error := none }
  | some e =>
    { campaignId := campaignId, contactId := c.id, email := c.email,
      status := "failed", error := some e }

/-- Send loop of the dispatch route over the valid contacts, in order:
personalize subject and body, call the provider, record one EmailResult per
recipient, and tally sent and failed counts.  A failure is caught per
recipient and never aborts the loop. -/
def dispatchLoop (campaignId : String) (subject message : List Char)
    (send : Nat → List Char → List Char → Option String) :
    List Contact → Nat → List EmailResult × Nat × Nat
  | [], _ => ([], 0, 0)
  | c :: rest, i =>
    match send i (replaceNamePlaceholder c.name subject)
        (replaceNamePlaceholder c.name message) with
    | none =>
      (mkEmailResult campaignId c none ::
          (dispatchLoop campaignId subject message send rest (i + 1)).1,
        (dispatchLoop campaignId subject message send rest (i + 1)).2.1 + 1,
        (dispatchLoop campaignId subject message send rest (i + 1)).2.2)
    | some e =>
      (mkEmailResult campaignId c (some e) ::
          (dispatchLoop campaignId subject message send rest (i + 1)).1,
        (dispatchLoop campaignId subject message send rest (i + 1)).2.1,
        (dispatchLoop campaignId subject message send rest (i + 1)).2.2 + 1)

/-- Partial update of the first updateCampaign call of the dispatch route:
status sending. -/
def setSending (c : Campaign) : Campaign :=
  { c with status := "sending" }

/-- Partial update of the final updateCampaign call of the dispatch route:
status completed with the final tally. -/
def setCompleted (s f : Nat) (c : Campaign) : Campaign :=
  { c with status := "completed", sentCount := s, failedCount := f }

/-- POST /api/campaigns/:id/send: 404 on unknown id; set status sending;
load and filter the attached contacts; 503 when the email credential is
absent (the status mutation has already happened); otherwise run the send
loop, append its results, and unconditionally overwrite the campaign with
status completed and the final tally. -/
def sendCampaignRoute (store : Store) (id : String) (brevoConfigured : Bool)
    (send : Nat → List Char → List Char → Option String) : Store × SendResponse :=
  match getCampaign store id with
  | none => (store, SendResponse.notFound)
  | some campaign =>
    let store1 := updateCampaignFields store id setSending
    let validContacts := (getContactsByCampaign store1 id).filter (fun c => c.isValid)
    if !brevoConfigured then (store1, SendResponse.notConfigured)
    else
      let r := dispatchLoop id campaign.subject campaign.message send validContacts 0
      let store2 := { store1 with emailResults := store1.emailResults ++ r.1 }
      let store3 := updateCampaignFields store2 id (setCompleted r.2.1 r.2.2)
      (store3, SendResponse.ok r.2.1 r.2.2 validContacts.length)

/-! Image generation job tracker, from POST /api/generate-image/start and
GET /api/generate-image/status/:taskId of the lazy-initialization routes
file.  The three provider calls a poll may make (prompt enhancement,
image submission, status check) are the environment of one poll.  The
handler assumes both credentials configured (the route returns 503 before
touching the cache otherwise). -/

/-- Stored ImageTask record of the in-memory task cache.  The TypeScript
status field is declared as a union of six literals, but the handler also
stores the raw provider status string, so the embedding uses String. -/
structure ImageTask where
  originalPrompt : String
  enhancedPrompt : Option String
  freepikTaskId : Option String
  status : String
  imageUrl : Option String
  error : Option String
deriving DecidableEq, Repr

/-- Record stored by POST /api/generate-image/start: the minimal record
with status CREATED; no provider is contacted. -/
def freshImageTask (prompt : String) : ImageTask :=
  { originalPrompt := prompt, enhancedPrompt := none, freepikTaskId := none,
    status := "CREATED", imageUrl := none, error := none }

/-- JavaScript falsiness of an optional string (undefined or empty). -/
def jsFalsyS (o : Option String) : Bool :=
  match o with
  | none => true
  | some s => s = ""

/-- Outcome of the prompt-enhancement call: a non-ok HTTP response with its
status text and body, or an ok response with the optional first-choice
content. -/
inductive EnhanceResp
  | httpError (statusText : String) (body : String)
  | ok (content : Option String)
deriving DecidableEq, Repr

/-- Outcome of the image-submission call: a non-ok HTTP response, or an ok
response carrying its raw body text (used verbatim in the no-task-id error
message), the optional task id, and the optional status field. -/
inductive SubmitResp
  | httpError (code : Nat) (body : String)
  | ok (raw : String) (taskId : Option String) (status : Option String)
deriving DecidableEq, Repr

/-- Body fields of an ok status-check response: the status, the generated
asset list, and the candidate error fields probed by the handler. -/
structure CheckData where
  status : Option String
  generated : List String
  errorMessage : Option String
  errorField : Option String
  dataMessage : Option String
  topMessage : Option String
deriving DecidableEq, Repr

/-- Outcome of the status-check call: a 429 with an optional Retry-After
header, another non-ok HTTP response, or an ok response. -/
inductive CheckResp
  | rateLimited (retryAfter : Option String)
  | httpError (code : Nat) (body : String)
  | ok (d : CheckData)
deriving DecidableEq, Repr

/-- Provider responses available to one poll. -/
structure PollEnv where
  enhance : EnhanceResp
  submit : SubmitResp
  check : CheckResp
deriving DecidableEq, Repr

/-- Responses of GET /api/generate-image/status/:taskId. -/
inductive PollResponse
  | notFound
  | failed (error : String)
  | completed (imageUrl : String) (enhancedPrompt : String)
  | rateLimited (error : String) (retryAfter : String)
  | processing (status : String)
  | current (status : String) (imageUrl : Option String) (error : Option String)
      (message : String)
  | internalError (message : String)
deriving DecidableEq, Repr

/-- Defensive multi-field error extraction of the FAILED branch:
data.error.message, else data.error, else data.message, else the top-level
message, else the generic fallback. -/
def errorFromCheck (d : CheckData) : String :=
  jsOrS d.errorMessage
    (jsOrS d.errorField
      (jsOrS d.dataMessage
        (jsOrS d.topMessage "Image generation failed")))

/-- Lazy-initialization block of the status handler, entered with the
status already set to INITIALIZING: enhance the prompt, submit to the
image provider, store the job handle; on any failure set status FAILED
with the captured error and produce the immediate failure response. -/
def runInit (task : ImageTask) (env : PollEnv) : ImageTask × Option PollResponse :=
  match env.enhance with
  | EnhanceResp.httpError st body =>
    let msg := "Prompt enhancement failed: " ++ st ++ " - " ++ body
    ({ task with status := "FAILED", error := some msg }, some (PollResponse.failed msg))
  | EnhanceResp.ok content =>
    let enhancedPrompt := jsOrS content task.originalPrompt
    let task1 := { task with enhancedPrompt := some enhancedPrompt }
    match env.submit with
    | SubmitResp.httpError code body =>
      let msg := "Freepik API error: " ++ toString code ++ " - " ++ body
      ({ task1 with status := "FAILED", error := some msg }, some (PollResponse.failed msg))
    | SubmitResp.ok raw taskId submitStatus =>
      if jsFalsyS taskId then
        let msg := "No task ID received from Freepik API. Response: " ++ raw
        ({ task1 with status := "FAILED", error := some msg },
          some (PollResponse.failed msg))
      else
        let st := if submitStatus = some "COMPLETED" then "COMPLETED" else "PENDING"
        let task2 := { task1 with freepikTaskId := taskId, status := st }
        (task2, none)

/-- Provider-status block of the status handler, entered whenever a job
handle is stored: 429 passes through without mutation; another HTTP error
is thrown to the 500 boundary; COMPLETED stores the first asset or fails
on an empty list; FAILED stores the extracted error; anything else mirrors
the raw provider status string into the stored status. -/
def runCheck (task : ImageTask) (check : CheckResp) : ImageTask × PollResponse :=
  match check with
  | CheckResp.rateLimited retryAfter =>
    (task, PollResponse.rateLimited
      "Rate limit exceeded. Please try again in a few moments."
      (jsOrS retryAfter "30"))
  | CheckResp.httpError code body =>
    (task, PollResponse.internalError
      ("Failed to check status: " ++ toString code ++ " - " ++ body))
  | CheckResp.ok d =>
    if d.status = some "COMPLETED" then
      match d.generated with
      | [] =>
        let msg := "Task completed but no images were generated"
        ({ task with status := "FAILED", error := some msg }, PollResponse.failed msg)
      | url :: _ =>
        ({ task with imageUrl := some url, status := "COMPLETED" },
          PollResponse.completed url (jsOrS task.enhancedPrompt task.originalPrompt))
    else if d.status = some "FAILED" then
      let msg := errorFromCheck d
      ({ task with status := "FAILED", error := some msg }, PollResponse.failed msg)
    else
      let st := jsOrS d.status "PROCESSING"
      ({ task with status := st }, PollResponse.processing st)

/-- One poll of GET /api/generate-image/status/:taskId on a task found in
the cache: lazy initialization when and only when the stored status is
CREATED, then the provider-status block whenever a job handle is stored,
else the fallthrough response reporting the stored record. -/
def pollStatus (task : ImageTask) (env : PollEnv) : ImageTask × PollResponse :=
  if task.status = "CREATED" then
    let p := runInit { task with status := "INITIALIZING" } env
    match p.2 with
    | some resp => (p.1, resp)
    | none => runCheck p.1 env.check
  else
    match task.freepikTaskId with
    | some _ => runCheck task env.check
    | none =>
      (task, PollResponse.current task.status task.imageUrl task.error
        (if task.status = "INITIALIZING" then "Initializing image generation..."
         else "Processing..."))

/-- The in-memory image task cache, an insertion-ordered map keyed by task
id as a JavaScript Map. -/
abbrev ImageCache := List (String × ImageTask)

/-- Map lookup. -/
def cacheGet (cache : ImageCache) (id : String) : Option ImageTask :=
  (List.find? (fun p => p.1 = id) cache).map (fun p => p.2)

/-- Map.set: overwrite the entry with this key in place, append when the
key is absent. -/
def cacheSet : ImageCache → String → ImageTask → ImageCache
  | [], id, t => [(id, t)]
  | p :: rest, id, t =>
    if p.1 = id then (id, t) :: rest else p :: cacheSet rest id t

/-- GET /api/generate-image/status/:taskId: 404 for an unknown id, else one
poll of the stored record, whose in-place mutation is the Map update. -/
def statusRoute (cache : ImageCache) (taskId : String) (env : PollEnv) :
    ImageCache × PollResponse :=
  match cacheGet cache taskId with
  | none => (cache, PollResponse.notFound)
  | some task =>
    let p := pollStatus task env
    (cacheSet cache taskId p.1, p.2)

/-- Stored record after a sequence of polls. -/
def pollSeq (task : ImageTask) : List PollEnv → ImageTask
  | [] => task
  | e :: es => pollSeq (pollStatus task e).1 es

/-- Number of polls in a sequence that enter the lazy-initialization block,
i.e. find the stored status CREATED. -/
def countInitRuns (task : ImageTask) : List PollEnv → Nat
  | [] => 0
  | e :: es =>
    (if task.status = "CREATED" then 1 else 0) + countInitRuns (pollStatus task e).1 es

/-- Environments whose status-check response makes the mirror branch store
the raw status string CREATED: an ok response whose status field is the
string CREATED (such a status is neither COMPLETED nor FAILED nor falsy,
so the mirror branch stores it verbatim). -/
def checkYieldsCreated (env : PollEnv) : Bool :=
  match env.check with
  | CheckResp.ok d => d.status = some "CREATED"
  | _ => false

/-! Theorems for the frozen claims. -/

/-- Messages used to refute the flip half of claim C8: the empty message
and the message stop differ in exactly the opt-out probe. -/
def c8MsgA : List Char := []

/-- Second message of the C8 counterexample. -/
def c8MsgB : List Char := ['s', 't', 'o', 'p']

/-- Claim C8, counterexample: two generated SMS messages whose five probe
vectors differ in exactly one probe (opt-out) while the stored compliance
flag is false for both, so flipping a single probe outcome with the other
four held constant does not flip the overall flag. -/
theorem c8_counterexample :
    (postProcess "sms" c8MsgA).2.hasOptOut = false ∧
    (postProcess "sms" c8MsgB).2.hasOptOut = true ∧
    (postProcess "sms" c8MsgA).2.hasBusinessName = (postProcess "sms" c8MsgB).2.hasBusinessName ∧
    (postProcess "sms" c8MsgA).2.hasCTA = (postProcess "sms" c8MsgB).2.hasCTA ∧
    (postProcess "sms" c8MsgA).2.withinLimit = (postProcess "sms" c8MsgB).2.withinLimit ∧
    (postProcess "sms" c8MsgA).2.hasLocation = (postProcess "sms" c8MsgB).2.hasLocation ∧
    (postProcess "sms" c8MsgA).1.isCompliant = (postProcess "sms" c8MsgB).1.isCompliant := by
  decide

/-- Claim C8, amended: the stored compliance flag equals the conjunction of
the five probe booleans, and flipping a single probe flips the overall
flag exactly when the other four probes are all true (for a conjunction, a
flip with some other probe false leaves the flag false). -/
theorem c8_compliance_flag :
    (∀ messageType generated,
      (postProcess messageType generated).1.isCompliant =
        overallCompliance
          (postProcess messageType generated).2.hasOptOut
          (postProcess messageType generated).2.hasBusinessName
          (postProcess messageType generated).2.hasCTA
          (postProcess messageType generated).2.withinLimit
          (postProcess messageType generated).2.hasLocation) ∧
    (∀ a b c d e : Bool,
      ((overallCompliance (!a) b c d e ≠ overallCompliance a b c d e) ↔ (b && c && d && e) = true) ∧
      ((overallCompliance a (!b) c d e ≠ overallCompliance a b c d e) ↔ (a && c && d && e) = true) ∧
      ((overallCompliance a b (!c) d e ≠ overallCompliance a b c d e) ↔ (a && b && d && e) = true) ∧
      ((overallCompliance a b c (!d) e ≠ overallCompliance a b c d e) ↔ (a && b && c && e) = true) ∧
      ((overallCompliance a b c d (!e) ≠ overallCompliance a b c d e) ↔ (a && b && c && d) = true)) := by
  constructor
  · intro messageType generated
    rfl
  · decide

/-- Code-side column requirement of the upload route: a key spelled exactly
Name or name, and a key spelled exactly Email or email, on the first row. -/
def requiredColumnsOk (r : Row) : Bool :=
  (rowHasKey "Name" r || rowHasKey "name" r) && (rowHasKey "Email" r || rowHasKey "email" r)

/-- Modelled from the claim C3 wording, for comparison with the code: the
contact import fails with SchemaError exactly when neither a Name nor an
Email column is present, matching either spelling case-insensitively. -/
def specSchemaFailCondition (rows : List Row) : Bool :=
  !((rows.headD []).any (fun p => p.1.toList.map Char.toLower = "name".toList) ||
    (rows.headD []).any (fun p => p.1.toList.map Char.toLower = "email".toList))

/-- Single-row payload refuting claim C3: a Name column is present, so the
claim requires the import to succeed, but the code also demands an Email
column and fails. -/
def c3Row : Row := [("Name", "x")]

/-- Claim C3, counterexample: on a nonempty payload whose first row has a
Name column but no Email column the code fails with SchemaError, although
the claim condition for SchemaError (neither column present) is false and
the claim therefore requires success. -/
theorem c3_counterexample :
    (uploadRoute Store.empty [c3Row]).2 = Except.error UploadError.schemaError ∧
    specSchemaFailCondition [c3Row] = false ∧
    ([c3Row] : List Row) ≠ [] := by
  refine ⟨rfl, by decide, by decide⟩

/-- Length of the id-assignment map. -/
theorem assignIds_length (base : Nat) (inserts : List InsertContact) :
    (assignIds base inserts).length = inserts.length := by
  induction inserts generalizing base with
  | nil => rfl
  | cons i rest ih => simp [assignIds, ih]

/-- Claim C3, amended: the import fails with FormatError exactly on zero
data rows; it fails with SchemaError exactly when the first row lacks a
key spelled exactly Name or name, or lacks a key spelled exactly Email or
email (the match is case-sensitive on these two spellings and both columns
are required); in every other case it succeeds and creates one Contact per
row. -/
theorem c3_upload_contract (store : Store) (rows : List Row) :
    ((uploadRoute store rows).2 = Except.error UploadError.formatError ↔ rows = []) ∧
    ((uploadRoute store rows).2 = Except.error UploadError.schemaError ↔
      rows ≠ [] ∧ requiredColumnsOk (rows.headD []) = false) ∧
    (∀ res, (uploadRoute store rows).2 = Except.ok res →
      res.total = rows.length ∧
      (uploadRoute store rows).1.contacts.length = store.contacts.length + rows.length) := by
  by_cases hrows : rows = []
  · subst hrows
    refine ⟨by simp [uploadRoute], by simp [uploadRoute], ?_⟩
    intro res hres
    simp [uploadRoute] at hres
  · have hlen : ¬ rows.length = 0 := by
      simpa [List.length_eq_zero] using hrows
    obtain ⟨r, rest, rfl⟩ : ∃ r rest, rows = r :: rest := by
      cases rows with
      | nil => exact absurd rfl hrows
      | cons r rest => exact ⟨r, rest, rfl⟩
    cases hN1 : rowHasKey "Name" r <;> cases hN2 : rowHasKey "name" r <;>
      cases hE1 : rowHasKey "Email" r <;> cases hE2 : rowHasKey "email" r <;>
      simp [uploadRoute, requiredColumnsOk, hN1, hN2, hE1, hE2,
        createManyContacts, validateContacts, assignIds_length]

/-- Witness for claim C3: applying the contract to the empty sheet and to a
well-formed one-row sheet. -/
theorem c3_upload_contract_witness :
    (uploadRoute Store.empty ([] : List Row)).2 = Except.error UploadError.formatError ∧
    (uploadRoute Store.empty [[("Name", "x"), ("Email", "y")]]).1.contacts.length = 0 + 1 :=
  ⟨(c3_upload_contract Store.empty []).1.mpr rfl,
   ((c3_upload_contract Store.empty [[("Name", "x"), ("Email", "y")]]).2.2 _ rfl).2⟩

/-- Lookup in an id-keyed list after an id-preserving in-place update of one
key: the update is applied to the looked-up record. -/
theorem find_update_eq (l : List Campaign) (id : String) (f : Campaign → Campaign)
    (hf : ∀ c, (f c).id = c.id) :
    (l.map (fun c => if c.id = id then f c else c)).find? (fun c => c.id = id)
      = (l.find? (fun c => c.id = id)).map f := by
  induction l with
  | nil => rfl
  | cons c rest ih =>
    by_cases h : c.id = id
    · simp [List.find?, h, hf]
    · simp [List.find?, h, ih]

/-- Campaign lookup after updateCampaignFields with an id-preserving update. -/
theorem getCampaign_update (store : Store) (id : String) (f : Campaign → Campaign)
    (hf : ∀ c, (f c).id = c.id) :
    getCampaign (updateCampaignFields store id f) id = (getCampaign store id).map f := by
  unfold getCampaign updateCampaignFields
  exact find_update_eq store.campaigns id f hf

/-- Per-recipient relation established by the dispatch loop: each produced
EmailResult belongs to the dispatched campaign, references its contact, and
has status sent or failed. -/
def resultMatches (campaignId : String) (r : EmailResult) (c : Contact) : Prop :=
  r.campaignId = campaignId ∧ r.contactId = c.id ∧
    (r.status = "sent" ∨ r.status = "failed")

/-- Loop invariant of the dispatch loop: one EmailResult per processed
contact, aligned in order, and the two tallies sum to the number of
processed contacts. -/
theorem dispatchLoop_spec (campaignId : String) (subject message : List Char)
    (send : Nat → List Char → List Char → Option String) :
    ∀ (cs : List Contact) (i : Nat),
      (dispatchLoop campaignId subject message send cs i).2.1 +
        (dispatchLoop campaignId subject message send cs i).2.2 = cs.length ∧
      List.Forall₂ (resultMatches campaignId)
        (dispatchLoop campaignId subject message send cs i).1 cs := by
  intro cs
  induction cs with
  | nil => intro i; exact ⟨rfl, List.Forall₂.nil⟩
  | cons c rest ih =>
    intro i
    obtain ⟨ihsum, ihrel⟩ := ih (i + 1)
    cases hout : send i (replaceNamePlaceholder c.name subject)
        (replaceNamePlaceholder c.name message) with
    | none =>
      refine ⟨?_, ?_⟩
      · simp only [dispatchLoop, hout, List.length_cons]
        omega
      · simp only [dispatchLoop, hout]
        exact List.Forall₂.cons ⟨rfl, rfl, Or.inl rfl⟩ ihrel
    | some e =>
      refine ⟨?_, ?_⟩
      · simp only [dispatchLoop, hout, List.length_cons]
        omega
      · simp only [dispatchLoop, hout]
        exact List.Forall₂.cons ⟨rfl, rfl, Or.inr rfl⟩ ihrel

/-- Projection lemma: campaign lookup ignores the email-result log. -/
theorem getCampaign_set_results (store : Store) (e : List EmailResult) (id : String) :
    getCampaign { store with emailResults := e } id = getCampaign store id := rfl

/-- Campaign lookup after the sending-status update. -/
theorem getCampaign_setSending (store : Store) (id : String) :
    getCampaign (updateCampaignFields store id setSending) id =
      (getCampaign store id).map setSending :=
  getCampaign_update store id setSending (fun _ => rfl)

/-- Campaign lookup after the final completed-status update. -/
theorem getCampaign_setCompleted (store : Store) (id : String) (s f : Nat) :
    getCampaign (updateCampaignFields store id (setCompleted s f)) id =
      (getCampaign store id).map (setCompleted s f) :=
  getCampaign_update store id (setCompleted s f) (fun _ => rfl)

/-- Closed form of a dispatch invocation that reaches the send loop. -/
theorem sendCampaignRoute_eq (store : Store) (id : String) (campaign : Campaign)
    (send : Nat → List Char → List Char → Option String)
    (hfound : getCampaign store id = some campaign) :
    sendCampaignRoute store id true send =
      (updateCampaignFields
          { updateCampaignFields store id setSending with
              emailResults := store.emailResults ++
                (dispatchLoop id campaign.subject campaign.message send
                  ((getContactsByCampaign store id).filter (fun c => c.isValid)) 0).1 }
          id
          (setCompleted
            (dispatchLoop id campaign.subject campaign.message send
              ((getContactsByCampaign store id).filter (fun c => c.isValid)) 0).2.1
            (dispatchLoop id campaign.subject campaign.message send
              ((getContactsByCampaign store id).filter (fun c => c.isValid)) 0).2.2),
        SendResponse.ok
          (dispatchLoop id campaign.subject campaign.message send
            ((getContactsByCampaign store id).filter (fun c => c.isValid)) 0).2.1
          (dispatchLoop id campaign.subject campaign.message send
            ((getContactsByCampaign store id).filter (fun c => c.isValid)) 0).2.2
          ((getContactsByCampaign store id).filter (fun c => c.isValid)).length) := by
  simp only [sendCampaignRoute, hfound, Bool.not_true, Bool.false_eq_true, if_false]
  rfl

/-- Claim C5 (confirmed): for a dispatch invocation that reaches the send
loop (campaign found, credential configured), over the N attached contacts
with stored validity true, exactly N EmailResult records are appended, one
per valid contact in insertion order with status sent or failed, and the
returned tallies sum to N; a per-recipient failure never blocks later
recipients, which is witnessed by the equality holding for every send
environment. -/
theorem c5_dispatch_results (store : Store) (id : String) (campaign : Campaign)
    (send : Nat → List Char → List Char → Option String)
    (hfound : getCampaign store id = some campaign) :
    ∃ rs s f,
      (sendCampaignRoute store id true send).2 =
        SendResponse.ok s f
          ((getContactsByCampaign store id).filter (fun c => c.isValid)).length ∧
      (sendCampaignRoute store id true send).1.emailResults = store.emailResults ++ rs ∧
      s + f = ((getContactsByCampaign store id).filter (fun c => c.isValid)).length ∧
      rs.length = ((getContactsByCampaign store id).filter (fun c => c.isValid)).length ∧
      List.Forall₂ (resultMatches id) rs
        ((getContactsByCampaign store id).filter (fun c => c.isValid)) := by
  rw [sendCampaignRoute_eq store id campaign send hfound]
  obtain ⟨hsum, hrel⟩ :=
    dispatchLoop_spec id campaign.subject campaign.message send
      ((getContactsByCampaign store id).filter (fun c => c.isValid)) 0
  exact ⟨(dispatchLoop id campaign.subject campaign.message send
      ((getContactsByCampaign store id).filter (fun c => c.isValid)) 0).1, _, _,
    rfl, rfl, hsum, hrel.length_eq, hrel⟩

/-- Claim C6 (confirmed): any dispatch invocation that reaches the send
loop finishes with the stored campaign status completed and its counters
overwritten by the final tally, for every send environment, including one
where every send fails. -/
theorem c6_campaign_completed (store : Store) (id : String) (campaign : Campaign)
    (send : Nat → List Char → List Char → Option String)
    (hfound : getCampaign store id = some campaign) :
    ∃ s f c2,
      (sendCampaignRoute store id true send).2 =
        SendResponse.ok s f
          ((getContactsByCampaign store id).filter (fun c => c.isValid)).length ∧
      getCampaign (sendCampaignRoute store id true send).1 id = some c2 ∧
      c2.status = "completed" ∧ c2.sentCount = s ∧ c2.failedCount = f := by
  rw [sendCampaignRoute_eq store id campaign send hfound]
  refine ⟨(dispatchLoop id campaign.subject campaign.message send
      ((getContactsByCampaign store id).filter (fun c => c.isValid)) 0).2.1,
    (dispatchLoop id campaign.subject campaign.message send
      ((getContactsByCampaign store id).filter (fun c => c.isValid)) 0).2.2,
    setCompleted
      (dispatchLoop id campaign.subject campaign.message send
        ((getContactsByCampaign store id).filter (fun c => c.isValid)) 0).2.1
      (dispatchLoop id campaign.subject campaign.message send
        ((getContactsByCampaign store id).filter (fun c => c.isValid)) 0).2.2
      (setSending campaign),
    rfl, ?_, rfl, rfl, rfl⟩
  dsimp only
  rw [getCampaign_setCompleted, getCampaign_set_results, getCampaign_setSending, hfound]
  rfl

/-- Concrete two-contact store used by the dispatch witnesses. -/
def wContactA : Contact :=
  { id := "ca", name := ['A'], email := ['a','@','b','.','c','o'],
    isValid := true, campaignId := some "camp" }

/-- Second contact of the witness store. -/
def wContactB : Contact :=
  { id := "cb", name := ['B'], email := ['b','@','b','.','c','o'],
    isValid := true, campaignId := some "camp" }

/-- Campaign of the witness store. -/
def wCampaign : Campaign :=
  { id := "camp", subject := ['s'], message := ['m'], totalContacts := 2,
    sentCount := 0, failedCount := 0, status := "pending" }

/-- Witness store: one campaign with two attached valid contacts. -/
def wStore : Store :=
  { contacts := [wContactA, wContactB], campaigns := [wCampaign], emailResults := [] }

/-- Send environment failing exactly on the second recipient. -/
def wSendFailSecond : Nat → List Char → List Char → Option String :=
  fun i _ _ => if i = 1 then some "provider boom" else none

/-- Send environment failing on every recipient. -/
def wSendAllFail : Nat → List Char → List Char → Option String :=
  fun _ _ _ => some "x"

/-- Witness for claim C5: the dispatch contract at the concrete store, with
a provider failure on the second of two recipients. -/
theorem c5_dispatch_results_witness :
    ∃ rs s f,
      (sendCampaignRoute wStore "camp" true wSendFailSecond).2 =
        SendResponse.ok s f
          ((getContactsByCampaign wStore "camp").filter (fun c => c.isValid)).length ∧
      (sendCampaignRoute wStore "camp" true wSendFailSecond).1.emailResults =
        wStore.emailResults ++ rs ∧
      s + f = ((getContactsByCampaign wStore "camp").filter (fun c => c.isValid)).length ∧
      rs.length = ((getContactsByCampaign wStore "camp").filter (fun c => c.isValid)).length ∧
      List.Forall₂ (resultMatches "camp") rs
        ((getContactsByCampaign wStore "camp").filter (fun c => c.isValid)) :=
  c5_dispatch_results wStore "camp" wCampaign wSendFailSecond rfl

/-- Witness for claim C6: the completion contract at the concrete store with
every send failing. -/
theorem c6_campaign_completed_witness :
    ∃ s f c2,
      (sendCampaignRoute wStore "camp" true wSendAllFail).2 =
        SendResponse.ok s f
          ((getContactsByCampaign wStore "camp").filter (fun c => c.isValid)).length ∧
      getCampaign (sendCampaignRoute wStore "camp" true wSendAllFail).1 "camp" = some c2 ∧
      c2.status = "completed" ∧ c2.sentCount = s ∧ c2.failedCount = f :=
  c6_campaign_completed wStore "camp" wCampaign wSendAllFail rfl

/-- Closed form of a dispatch invocation on an existing campaign with the
credential absent: the sending-status mutation has already happened when
the 503 is produced. -/
theorem sendCampaignRoute_notConfigured_eq (store : Store) (id : String) (campaign : Campaign)
    (send : Nat → List Char → List Char → Option String)
    (hfound : getCampaign store id = some campaign) :
    sendCampaignRoute store id false send =
      (updateCampaignFields store id setSending, SendResponse.notConfigured) := by
  simp only [sendCampaignRoute, hfound, Bool.not_false, if_true]

/-- Repeating the in-place sending-status update changes nothing. -/
theorem updateSending_map_idem (l : List Campaign) (id : String) :
    (l.map (fun c => if c.id = id then setSending c else c)).map
        (fun c => if c.id = id then setSending c else c)
      = l.map (fun c => if c.id = id then setSending c else c) := by
  induction l with
  | nil => rfl
  | cons c rest ih =>
    simp only [List.map_cons, ih]
    by_cases h : c.id = id
    · rw [if_pos h, if_pos (show (setSending c).id = id from h)]
      rfl
    · rw [if_neg h, if_neg h]

/-- Store-level idempotence of the sending-status update. -/
theorem updateCampaignFields_setSending_idem (store : Store) (id : String) :
    updateCampaignFields (updateCampaignFields store id setSending) id setSending
      = updateCampaignFields store id setSending := by
  unfold updateCampaignFields
  exact congrArg (fun l => { store with campaigns := l })
    (updateSending_map_idem store.campaigns id)

/-- Claim C10 (confirmed): with the email credential absent, the dispatch
endpoint mutates the stored campaign to status sending before the
credential check, so after the 503 the campaign remains in status sending
with its counters unchanged and no results written, and every further
no-credential dispatch leaves the store exactly there — the campaign never
reaches a terminal status. -/
theorem c10_not_configured (store : Store) (id : String) (campaign : Campaign)
    (send : Nat → List Char → List Char → Option String)
    (hfound : getCampaign store id = some campaign) :
    (sendCampaignRoute store id false send).2 = SendResponse.notConfigured ∧
    getCampaign (sendCampaignRoute store id false send).1 id = some (setSending campaign) ∧
    (setSending campaign).status = "sending" ∧
    (setSending campaign).sentCount = campaign.sentCount ∧
    (setSending campaign).failedCount = campaign.failedCount ∧
    (sendCampaignRoute store id false send).1.emailResults = store.emailResults ∧
    (∀ send2, sendCampaignRoute (sendCampaignRoute store id false send).1 id false send2
        = ((sendCampaignRoute store id false send).1, SendResponse.notConfigured)) := by
  rw [sendCampaignRoute_notConfigured_eq store id campaign send hfound]
  refine ⟨rfl, ?_, rfl, rfl, rfl, rfl, ?_⟩
  · rw [getCampaign_setSending, hfound]
    rfl
  · intro send2
    have hfound2 : getCampaign (updateCampaignFields store id setSending) id
        = some (setSending campaign) := by
      rw [getCampaign_setSending, hfound]
      rfl
    rw [sendCampaignRoute_notConfigured_eq _ id (setSending campaign) send2 hfound2,
      updateCampaignFields_setSending_idem]

/-- Witness for claim C10 at the concrete store. -/
theorem c10_not_configured_witness :
    (sendCampaignRoute wStore "camp" false wSendAllFail).2 = SendResponse.notConfigured ∧
    getCampaign (sendCampaignRoute wStore "camp" false wSendAllFail).1 "camp"
      = some (setSending wCampaign) ∧
    (setSending wCampaign).status = "sending" ∧
    (setSending wCampaign).sentCount = wCampaign.sentCount ∧
    (setSending wCampaign).failedCount = wCampaign.failedCount ∧
    (sendCampaignRoute wStore "camp" false wSendAllFail).1.emailResults = wStore.emailResults ∧
    (∀ send2,
      sendCampaignRoute (sendCampaignRoute wStore "camp" false wSendAllFail).1 "camp" false send2
        = ((sendCampaignRoute wStore "camp" false wSendAllFail).1, SendResponse.notConfigured)) :=
  c10_not_configured wStore "camp" wCampaign wSendAllFail rfl

/-- Predicate on templates: every left brace starts a full literal
placeholder token.  Under this restriction (and a name free of left
braces) the replacement output cannot recombine into a new token. -/
def bracesStartTokens : List Char → Bool
  | [] => true
  | c :: rest =>
    (c ≠ '\x7b' || nameToken.isPrefixOf (c :: rest)) && bracesStartTokens rest

/-- Token containment implies a left brace is present. -/
theorem containsNameToken_mem (l : List Char) (h : containsNameToken l = true) :
    '\x7b' ∈ l := by
  induction l with
  | nil => simp [containsNameToken, containsSub, nameToken] at h
  | cons c rest ih =>
    simp only [containsNameToken, containsSub, Bool.or_eq_true] at h
    rcases h with h | h
    · have hc : c = '\x7b' := by
        cases hpre : nameToken.isPrefixOf (c :: rest)
        · rw [hpre] at h
          exact absurd h (by simp)
        · have h2 := hpre
          simp [nameToken, List.isPrefixOf] at h2
          exact h2.1.symm
      exact hc ▸ List.mem_cons_self c rest
    · exact List.mem_cons_of_mem c (ih h)

theorem bracesStartTokens_tail (c : Char) (rest : List Char)
    (h : bracesStartTokens (c :: rest) = true) : bracesStartTokens rest = true := by
  simp only [bracesStartTokens, Bool.and_eq_true] at h
  exact h.2

/-- Dropping elements preserves the braces-start-tokens property. -/
theorem bracesStartTokens_drop :
    ∀ (k : Nat) (l : List Char), bracesStartTokens l = true →
      bracesStartTokens (l.drop k) = true
  | 0, _, h => h
  | _ + 1, [], _ => rfl
  | k + 1, c :: rest, h => bracesStartTokens_drop k rest (bracesStartTokens_tail c rest h)

/-- On a replacement string without a dollar sign no substitution pattern
fires and GetSubstitution is the identity. -/
theorem getSubstitution_no_dollar (matched str : List Char) (position : Nat) :
    ∀ (repl : List Char), '$' ∉ repl →
      getSubstitution matched str position repl = repl := by
  intro repl
  induction repl with
  | nil => intro _; rfl
  | cons c rest ih =>
    intro hnd
    have hc : ¬ c = '$' := fun hc => hnd (hc ▸ List.mem_cons_self c rest)
    have hrest : '$' ∉ rest := fun hm => hnd (List.mem_cons_of_mem c hm)
    rw [getSubstitution.eq_2 matched str position c rest
      (fun _ _ hceq _ => hc hceq), ih hrest]

/-- Core lemma for claim C7: when every left brace of the template opens a
full placeholder token and the replacement name contains neither a left
brace nor a dollar sign, the replacement output contains no left brace at
all. -/
theorem replace_no_brace (name : List Char) (hbrace : '\x7b' ∉ name)
    (hdollar : '$' ∉ name) (str : List Char) :
    ∀ (pos : Nat) (l : List Char), bracesStartTokens l = true →
      '\x7b' ∉ replaceScan name str pos l := by
  refine replaceScan.induct name str
    (fun pos l => bracesStartTokens l = true → '\x7b' ∉ replaceScan name str pos l)
    ?_ ?_ ?_
  · intro pos rest ih hb hmem
    rw [replaceScan.eq_1, getSubstitution_no_dollar nameToken str pos name hdollar] at hmem
    rcases List.mem_append.mp hmem with h | h
    · exact hbrace h
    · exact ih (bracesStartTokens_tail _ _ (bracesStartTokens_tail _ _
        (bracesStartTokens_tail _ _ (bracesStartTokens_tail _ _
          (bracesStartTokens_tail _ _ (bracesStartTokens_tail _ _ hb)))))) h
  · intro pos c rest hnotok ih hb hmem
    rw [replaceScan.eq_2 name str pos c rest hnotok] at hmem
    have hc : c ≠ '\x7b' := by
      intro hceq
      subst hceq
      simp only [bracesStartTokens, Bool.and_eq_true] at hb
      have hpre : nameToken.isPrefixOf ('\x7b' :: rest) = true := by
        simpa using hb.1
      obtain ⟨t, ht⟩ := List.isPrefixOf_iff_prefix.mp hpre
      have hrest : rest = 'n' :: 'a' :: 'm' :: 'e' :: '\x7d' :: t := by
        simpa [nameToken] using (congrArg List.tail ht).symm
      exact hnotok t rfl hrest
    rcases List.mem_cons.mp hmem with h | h
    · exact hc h.symm
    · exact ih (bracesStartTokens_tail c rest hb) h
  · intro _ hb hmem
    simp [replaceScan] at hmem

/-- Template of the C7 counterexample. -/
def c7Template : List Char := ['h','i',' ','\x7b','n','a','m','e','\x7d']

/-- Recipient name of the C7 counterexample: the name is itself the literal
placeholder token (nothing in the upload pipeline forbids it). -/
def c7BadName : List Char := ['\x7b','n','a','m','e','\x7d']

/-- Claim C7, counterexample: the template contains the placeholder token,
yet the personalized text still contains it, because the replacement text
(the recipient name) is never rescanned but is itself the token; a second
instance shows a brace-free name consisting of a dollar and an ampersand,
which the ECMAScript substitution expands back into the matched token. -/
theorem c7_counterexample :
    containsNameToken c7Template = true ∧
    containsNameToken (replaceNamePlaceholder c7BadName c7Template) = true ∧
    containsNameToken (replaceNamePlaceholder ['$', '&'] c7Template) = true := by
  decide

/-- Claim C7, amended: the personalized text contains no occurrence of the
literal placeholder token whenever every left brace of the template opens
a full token and the recipient name contains neither a left brace nor a
dollar sign; without those restrictions the replacement can leave the
token in the output, by being the token itself, by recombining with
surrounding template text, or by a dollar-ampersand substitution pattern
reinserting the matched token. -/
theorem c7_no_token_after_replace (template name : List Char)
    (htemplate : bracesStartTokens template = true) (hbrace : '\x7b' ∉ name)
    (hdollar : '$' ∉ name) :
    containsNameToken (replaceNamePlaceholder name template) = false := by
  cases hc : containsNameToken (replaceNamePlaceholder name template)
  · rfl
  · exact absurd (containsNameToken_mem _ hc)
      (replace_no_brace name hbrace hdollar template 0 template htemplate)

/-- Witness for claim C7: the amended statement applied to a benign
template and name. -/
theorem c7_no_token_after_replace_witness :
    containsNameToken (replaceNamePlaceholder ['B','o','b'] c7Template) = false :=
  c7_no_token_after_replace c7Template ['B','o','b'] (by decide) (by decide) (by decide)

/-- Map.set with the value already stored at the key is a no-op. -/
theorem cacheSet_self (cache : ImageCache) (id : String) (task : ImageTask)
    (h : cacheGet cache id = some task) : cacheSet cache id task = cache := by
  induction cache with
  | nil => simp [cacheGet] at h
  | cons p rest ih =>
    cases p with
    | mk k v =>
      by_cases hp : k = id
      · have hv : v = task := by
          simpa [cacheGet, List.find?, hp] using h
        subst hv
        subst hp
        simp [cacheSet]
      · have h2 : cacheGet rest id = some task := by
          simpa [cacheGet, List.find?, hp] using h
        simp [cacheSet, hp, ih h2]

/-- Stored job of the C1 counterexample: terminal status COMPLETED with a
stored provider job handle. -/
def c1Task : ImageTask :=
  { originalPrompt := "p", enhancedPrompt := some "e", freepikTaskId := some "f",
    status := "COMPLETED", imageUrl := some "u", error := none }

/-- Provider responses of the C1 counterexample: the status check reports
the job as still in progress. -/
def c1Env : PollEnv :=
  { enhance := EnhanceResp.ok none, submit := SubmitResp.ok "" none none,
    check := CheckResp.ok
      { status := some "IN_PROGRESS", generated := [], errorMessage := none,
        errorField := none, dataMessage := none, topMessage := none } }

/-- Claim C1, counterexample: a poll on a stored job in the terminal state
COMPLETED (holding a provider handle) re-queries the provider and mirrors
its report, moving the stored status back to the non-terminal IN_PROGRESS
and changing the stored record. -/
theorem c1_counterexample :
    c1Task.status = "COMPLETED" ∧
    cacheGet (statusRoute [("t", c1Task)] "t" c1Env).1 "t" =
      some { c1Task with status := "IN_PROGRESS" } ∧
    ¬ ("IN_PROGRESS" = "COMPLETED" ∨ "IN_PROGRESS" = "FAILED") := by
  decide

/-- Claim C1, amended: a stored job in a terminal state is left unchanged
by any subsequent poll, with the identical result returned for every
provider environment, exactly when it holds no provider job handle
(initialization-failure jobs); a terminal job holding a handle is
re-polled against the provider and its stored status mirrors the latest
provider report, which can be non-terminal. -/
theorem c1_terminal_stable_without_handle (cache : ImageCache) (id : String)
    (task : ImageTask) (env : PollEnv)
    (hfound : cacheGet cache id = some task)
    (hterm : task.status = "COMPLETED" ∨ task.status = "FAILED")
    (hnohandle : task.freepikTaskId = none) :
    statusRoute cache id env =
      (cache, PollResponse.current task.status task.imageUrl task.error "Processing...") := by
  have hnc : ¬ task.status = "CREATED" := by
    rcases hterm with h | h <;> simp [h]
  have hni : (if task.status = "INITIALIZING" then "Initializing image generation..."
      else "Processing...") = "Processing..." := by
    rcases hterm with h | h <;> simp [h]
  simp only [statusRoute, hfound]
  simp only [pollStatus, if_neg hnc, hnohandle]
  rw [hni, cacheSet_self cache id task hfound]

/-- Stored job used by the C1 witness: an initialization failure, terminal
without a provider handle. -/
def c1FailedTask : ImageTask :=
  { originalPrompt := "p", enhancedPrompt := none, freepikTaskId := none,
    status := "FAILED", imageUrl := none, error := some "boom" }

/-- Witness for claim C1: the amended stability statement at a concrete
failed job without a handle. -/
theorem c1_terminal_stable_without_handle_witness :
    statusRoute [("t", c1FailedTask)] "t" c1Env =
      ([("t", c1FailedTask)],
        PollResponse.current c1FailedTask.status c1FailedTask.imageUrl
          c1FailedTask.error "Processing...") :=
  c1_terminal_stable_without_handle [("t", c1FailedTask)] "t" c1FailedTask c1Env
    rfl (Or.inr rfl) rfl

/-- Error message captured when the lazy-initialization block fails, none
when it succeeds: the three failure modes of the block (enhancement HTTP
error, submission HTTP error, falsy task id). -/
def initFailureMsg (env : PollEnv) : Option String :=
  match env.enhance with
  | EnhanceResp.httpError st body =>
    some ("Prompt enhancement failed: " ++ st ++ " - " ++ body)
  | EnhanceResp.ok _ =>
    match env.submit with
    | SubmitResp.httpError code body =>
      some ("Freepik API error: " ++ toString code ++ " - " ++ body)
    | SubmitResp.ok raw taskId _ =>
      if jsFalsyS taskId then
        some ("No task ID received from Freepik API. Response: " ++ raw)
      else none

/-- Environment of the first C4 poll: successful initialization, after
which the status check mirrors the raw provider status CREATED into the
stored record. -/
def c4Env1 : PollEnv :=
  { enhance := EnhanceResp.ok (some "E"), submit := SubmitResp.ok "raw" (some "f") none,
    check := CheckResp.ok
      { status := some "CREATED", generated := [], errorMessage := none,
        errorField := none, dataMessage := none, topMessage := none } }

/-- Environment of the second C4 poll: the enhancement call fails, which is
observable only inside the initialization block. -/
def c4Env2 : PollEnv :=
  { enhance := EnhanceResp.httpError "boom" "body", submit := SubmitResp.ok "r" none none,
    check := CheckResp.ok
      { status := none, generated := [], errorMessage := none,
        errorField := none, dataMessage := none, topMessage := none } }

/-- Claim C4, counterexample: starting from a fresh job, the first poll
runs initialization (it stores the provider handle), yet leaves the stored
status CREATED because the status check mirrored the raw provider status
string CREATED; the second poll therefore re-enters initialization, shown
by its enhancement failure being recorded, and the init-entry count over
the two polls is 2. -/
theorem c4_counterexample :
    (freshImageTask "p").status = "CREATED" ∧
    (pollStatus (freshImageTask "p") c4Env1).1.freepikTaskId = some "f" ∧
    (pollStatus (freshImageTask "p") c4Env1).1.status = "CREATED" ∧
    countInitRuns (freshImageTask "p") [c4Env1, c4Env2] = 2 ∧
    (pollStatus (pollStatus (freshImageTask "p") c4Env1).1 c4Env2).1.status = "FAILED" ∧
    (pollStatus (pollStatus (freshImageTask "p") c4Env1).1 c4Env2).1.error =
      some "Prompt enhancement failed: boom - body" := by
  decide

/-- Status after the provider-check block is never CREATED as long as the
stored status was not CREATED and the provider does not report the raw
status string CREATED. -/
theorem runCheck_status_ne_created (task : ImageTask) (check : CheckResp)
    (htask : ¬ task.status = "CREATED")
    (hc : ∀ d, check = CheckResp.ok d → ¬ d.status = some "CREATED") :
    ¬ (runCheck task check).1.status = "CREATED" := by
  cases check with
  | rateLimited ra => simpa [runCheck] using htask
  | httpError code body => simpa [runCheck] using htask
  | ok d =>
    by_cases h1 : d.status = some "COMPLETED"
    · cases hg : d.generated with
      | nil => simp [runCheck, h1, hg]
      | cons u us => simp [runCheck, h1, hg]
    · by_cases h2 : d.status = some "FAILED"
      · simp [runCheck, h1, h2]
      · have hd := hc d rfl
        simp only [runCheck, if_neg h1, if_neg h2]
        cases hds : d.status with
        | none => simp [jsOrS]
        | some st =>
          by_cases hempty : st = ""
          · simp [jsOrS, hempty]
          · have : ¬ st = "CREATED" := by
              intro hcr
              exact hd (by rw [hds, hcr])
            simpa [jsOrS, hempty] using this

/-- One poll in an environment whose status check does not report the raw
status CREATED never leaves the stored status CREATED. -/
theorem pollStatus_status_ne_created (task : ImageTask) (env : PollEnv)
    (henv : checkYieldsCreated env = false) :
    ¬ (pollStatus task env).1.status = "CREATED" := by
  have hc : ∀ d, env.check = CheckResp.ok d → ¬ d.status = some "CREATED" := by
    intro d hd hds
    rw [checkYieldsCreated, hd] at henv
    simp [hds] at henv
  by_cases hcr : task.status = "CREATED"
  · simp only [pollStatus, if_pos hcr]
    cases henh : env.enhance with
    | httpError st body => simp [runInit, henh]
    | ok content =>
      cases hsub : env.submit with
      | httpError code body => simp [runInit, henh, hsub]
      | ok raw taskId submitStatus =>
        by_cases hfal : jsFalsyS taskId = true
        · simp [runInit, henh, hsub, hfal]
        · by_cases hcompl : submitStatus = some "COMPLETED"
          · simp only [runInit, henh, hsub, if_neg hfal, if_pos hcompl]
            exact runCheck_status_ne_created _ _ (by simp) hc
          · simp only [runInit, henh, hsub, if_neg hfal, if_neg hcompl]
            exact runCheck_status_ne_created _ _ (by simp) hc
  · simp only [pollStatus, if_neg hcr]
    cases hfid : task.freepikTaskId with
    | none => simpa using hcr
    | some fid => exact runCheck_status_ne_created _ _ hcr hc

/-- A poll sequence in which no environment reports the raw status CREATED
never re-enters initialization once the stored status has left CREATED. -/
theorem countInitRuns_zero (envs : List PollEnv)
    (h : ∀ e ∈ envs, checkYieldsCreated e = false) :
    ∀ task : ImageTask, ¬ task.status = "CREATED" → countInitRuns task envs = 0 := by
  induction envs with
  | nil => intro task _; rfl
  | cons e es ih =>
    intro task htask
    have he : checkYieldsCreated e = false := h e (List.mem_cons_self e es)
    have hes : ∀ e2 ∈ es, checkYieldsCreated e2 = false :=
      fun e2 hm => h e2 (List.mem_cons_of_mem e hm)
    simp only [countInitRuns, if_neg htask, Nat.zero_add]
    exact ih hes (pollStatus (task) e).1 (pollStatus_status_ne_created task e he)

/-- Claim C4, amended: the initialization block runs exactly on polls that
find the stored status CREATED (no other poll touches the enhanced prompt
or the provider handle); on any failure inside the block the job becomes
FAILED with the captured error and that failure is returned immediately;
and, provided no provider status check ever reports the raw status string
CREATED (which the mirror branch would store, re-arming the guard), a
fresh job enters initialization at most once over any poll sequence. -/
theorem c4_init_guard :
    (∀ (task : ImageTask) (env : PollEnv), ¬ task.status = "CREATED" →
      (pollStatus task env).1.enhancedPrompt = task.enhancedPrompt ∧
      (pollStatus task env).1.freepikTaskId = task.freepikTaskId) ∧
    (∀ (task : ImageTask) (env : PollEnv) (msg : String), task.status = "CREATED" →
      initFailureMsg env = some msg →
      (pollStatus task env).1.status = "FAILED" ∧
      (pollStatus task env).1.error = some msg ∧
      (pollStatus task env).2 = PollResponse.failed msg) ∧
    (∀ (envs : List PollEnv), (∀ e ∈ envs, checkYieldsCreated e = false) →
      ∀ (p : String), countInitRuns (freshImageTask p) envs ≤ 1) := by
  refine ⟨?_, ?_, ?_⟩
  · intro task env htask
    simp only [pollStatus, if_neg htask]
    cases hfid : task.freepikTaskId with
    | none => simp [hfid]
    | some fid =>
      simp only [hfid]
      cases hc2 : env.check with
      | rateLimited ra => simp [runCheck, hc2, hfid]
      | httpError code body => simp [runCheck, hc2, hfid]
      | ok d =>
        by_cases h1 : d.status = some "COMPLETED"
        · cases hg : d.generated with
          | nil => simp [runCheck, hc2, h1, hg, hfid]
          | cons u us => simp [runCheck, hc2, h1, hg, hfid]
        · by_cases h2 : d.status = some "FAILED"
          · simp [runCheck, hc2, h1, h2, hfid]
          · simp [runCheck, hc2, h1, h2, hfid]
  · intro task env msg htask hmsg
    simp only [pollStatus, if_pos htask]
    cases henh : env.enhance with
    | httpError st body =>
      rw [initFailureMsg, henh] at hmsg
      obtain rfl : _ = msg := Option.some.inj hmsg
      simp [runInit, henh]
    | ok content =>
      cases hsub : env.submit with
      | httpError code body =>
        rw [initFailureMsg, henh, hsub] at hmsg
        obtain rfl : _ = msg := Option.some.inj hmsg
        simp [runInit, henh, hsub]
      | ok raw taskId submitStatus =>
        by_cases hfal : jsFalsyS taskId = true
        · simp only [initFailureMsg, henh, hsub, if_pos hfal] at hmsg
          obtain rfl : _ = msg := Option.some.inj hmsg
          simp [runInit, henh, hsub, hfal]
        · simp only [initFailureMsg, henh, hsub, if_neg hfal] at hmsg
          exact absurd hmsg (by simp)
  · intro envs h p
    cases envs with
    | nil => exact Nat.zero_le 1
    | cons e es =>
      have he : checkYieldsCreated e = false := h e (List.mem_cons_self e es)
      have hes : ∀ e2 ∈ es, checkYieldsCreated e2 = false :=
        fun e2 hm => h e2 (List.mem_cons_of_mem e hm)
      have hzero := countInitRuns_zero es hes (pollStatus (freshImageTask p) e).1
        (pollStatus_status_ne_created (freshImageTask p) e he)
      simp only [freshImageTask] at hzero ⊢
      simp [countInitRuns, hzero]

/-- Witness for claim C4: the at-most-once bound applied to a one-poll
sequence whose status check does not report CREATED. -/
theorem c4_init_guard_witness :
    countInitRuns (freshImageTask "p") [c4Env2] ≤ 1 :=
  c4_init_guard.2.2 [c4Env2] (by decide) "p"

/-- Raw SMS completion of the C2 counterexample: 159 word characters, a
space at index 159, then 41 more characters (201 characters in all, above
the 160 cap). -/
def c2Raw : List Char := List.replicate 159 'a' ++ [' '] ++ List.replicate 41 'b'

set_option maxRecDepth 4000 in
/-- Claim C2, counterexample: for this 201-character completion the
truncation keeps the 159 characters before the final in-cap space and then
appends the three-character ellipsis, so the stored characterCount is 162,
above the 160 SMS cap the claim asserts. -/
theorem c2_counterexample :
    c2Raw.length = 201 ∧
    (postProcess "sms" c2Raw).1.characterCount = 162 ∧
    ¬ (postProcess "sms" c2Raw).1.characterCount ≤ 160 := by
  decide

/-- Value analysis of the space scan: it returns -1 or a valid index
holding a space. -/
theorem lastIndexOfSpace_spec (l : List Char) :
    lastIndexOfSpace l = -1 ∨
    ∃ n : Nat, lastIndexOfSpace l = (n : Int) ∧ n < l.length ∧ l.get? n = some ' ' := by
  induction l with
  | nil => exact Or.inl rfl
  | cons c rest ih =>
    rcases ih with h | ⟨n, hn, hlt, hget⟩
    · by_cases hc : c = ' '
      · exact Or.inr ⟨0, by simp [lastIndexOfSpace, h, hc], by simp, by simp [hc]⟩
      · exact Or.inl (by simp [lastIndexOfSpace, h, hc])
    · have hne : lastIndexOfSpace rest ≠ -1 := by
        rw [hn]
        omega
      refine Or.inr ⟨n + 1, ?_, by simpa using hlt, by simpa using hget⟩
      simp [lastIndexOfSpace, hn, if_neg hne]

/-- Claim C2, amended: for every SMS completion above the 160-character
cap, the stored text is a prefix of the completion cut at a space (or the
empty prefix when the first 160 characters hold no space) followed by the
ellipsis marker; the kept prefix is at most 159 characters, so the stored
text and characterCount are bounded by 162 = cap + 2, not by the cap
itself, and characterCount always equals the stored text length. -/
theorem c2_truncation (msg : List Char) (hlong : 160 < msg.length) :
    (postProcess "sms" msg).1.characterCount =
      (postProcess "sms" msg).1.generatedMessage.length ∧
    (postProcess "sms" msg).1.generatedMessage.length ≤ 162 ∧
    ∃ pre, (postProcess "sms" msg).1.generatedMessage = pre ++ ellipsisMarker ∧
      pre.length ≤ 159 ∧ pre <+: msg ∧
      (pre = [] ∨ msg.get? pre.length = some ' ') := by
  have hmsg : (postProcess "sms" msg).1.generatedMessage = enforceLimit 160 msg := rfl
  have htlen : (msg.take 160).length = 160 := by
    simp [List.length_take]
    omega
  have henf : enforceLimit 160 msg =
      jsSubstringTo (msg.take 160)
        (min ((msg.take 160).length : Int) (lastIndexOfSpace (msg.take 160)))
        ++ ellipsisMarker := by
    rw [enforceLimit, if_pos hlong]
  refine ⟨rfl, ?_, ?_⟩ <;> rw [hmsg, henf, htlen]
  · rcases lastIndexOfSpace_spec (msg.take 160) with h | ⟨n, hn, hlt, _⟩
    · rw [h]
      simp [jsSubstringTo, ellipsisMarker]
    · rw [hn]
      rw [htlen] at hlt
      have hmin : min (((160 : Nat) : Int)) ((n : Nat) : Int) = ((n : Nat) : Int) := by
        apply min_eq_right
        omega
      rw [hmin]
      simp only [jsSubstringTo, Int.toNat_natCast, List.length_append, List.length_take,
        ellipsisMarker]
      simp only [List.length_cons, List.length_nil]
      omega
  · rcases lastIndexOfSpace_spec (msg.take 160) with h | ⟨n, hn, hlt, hget⟩
    · rw [h]
      refine ⟨[], ?_, by simp, List.nil_prefix, Or.inl rfl⟩
      simp [jsSubstringTo]
    · rw [hn]
      rw [htlen] at hlt
      have hmin : min (((160 : Nat) : Int)) ((n : Nat) : Int) = ((n : Nat) : Int) := by
        apply min_eq_right
        omega
      rw [hmin]
      refine ⟨msg.take n, ?_, ?_, List.take_prefix n msg, Or.inr ?_⟩
      · simp only [jsSubstringTo, Int.toNat_natCast]
        rw [List.take_take, min_eq_left (show n ≤ 160 by omega)]
      · exact le_trans (List.length_take_le n msg) (by omega)
      · have hpl : (msg.take n).length = n := by
          rw [List.length_take]
          exact min_eq_left (by omega)
        rw [hpl]
        rw [← List.get?_take (show n < 160 by omega)]
        exact hget

set_option maxRecDepth 4000 in
/-- Witness for claim C2: the amended bounds applied to the concrete
201-character completion. -/
theorem c2_truncation_witness :
    (postProcess "sms" c2Raw).1.characterCount =
      (postProcess "sms" c2Raw).1.generatedMessage.length ∧
    (postProcess "sms" c2Raw).1.generatedMessage.length ≤ 162 ∧
    ∃ pre, (postProcess "sms" c2Raw).1.generatedMessage = pre ++ ellipsisMarker ∧
      pre.length ≤ 159 ∧ pre <+: c2Raw ∧
      (pre = [] ∨ c2Raw.get? pre.length = some ' ') :=
  c2_truncation c2Raw (by decide)

/-- Contacts created by the upload always carry isValid false: the route
maps every row to an insert with isValid false and MemStorage keeps that
flag; only the returned copies of validateContacts carry the computed
flag. -/
theorem assignIds_invalid (base : Nat) (rows : List Row) :
    ∀ c ∈ assignIds base (rows.map rowToInsert), c.isValid = false := by
  induction rows generalizing base with
  | nil => intro c hc; simp [assignIds] at hc
  | cons r rest ih =>
    intro c hc
    simp only [List.map_cons, assignIds, List.mem_cons] at hc
    rcases hc with rfl | hc
    · rfl
    · exact ih (base + 1) c hc

/-- One-row sheet of the C9 scenario, with a syntactically valid email. -/
def c9Row : Row := [("Name", "Alice"), ("Email", "alice@example.com")]

/-- Store state after uploading the C9 sheet into an empty store. -/
def c9Store1 : Store := (uploadRoute Store.empty [c9Row]).1

/-- Store state after creating a campaign over the uploaded contact. -/
def c9Store2 : Store := (createCampaignRoute c9Store1 ['s'] ['m'] ["contact-0"]).1

/-- Claim C9 (confirmed): validateContacts returns fresh validated copies
and writes nothing back, so after any successful upload the store holds
exactly the appended contact records, all with isValid false; in the
concrete scenario the upload response reports one valid contact, yet
dispatching the campaign attached to that upload filters every contact out
and sends to zero recipients with no EmailResult written, for every send
environment. -/
theorem c9_validate_contacts_frame :
    (∀ (store : Store) (rows : List Row) (res : UploadResult),
      (uploadRoute store rows).2 = Except.ok res →
      (uploadRoute store rows).1.contacts =
        store.contacts ++ assignIds store.contacts.length (rows.map rowToInsert)) ∧
    (∀ (base : Nat) (rows : List Row),
      ∀ c ∈ assignIds base (rows.map rowToInsert), c.isValid = false) ∧
    ((uploadRoute Store.empty [c9Row]).2 =
        Except.ok { total := 1, valid := 1, invalid := 0, contactIds := ["contact-0"] } ∧
      (∀ send, (sendCampaignRoute c9Store2 "campaign-0" true send).2 =
          SendResponse.ok 0 0 0 ∧
        (sendCampaignRoute c9Store2 "campaign-0" true send).1.emailResults = [])) := by
  refine ⟨?_, assignIds_invalid, rfl, ?_⟩
  · intro store rows res hok
    cases rows with
    | nil => simp [uploadRoute] at hok
    | cons r rest =>
      cases hN1 : rowHasKey "Name" r <;> cases hN2 : rowHasKey "name" r <;>
        cases hE1 : rowHasKey "Email" r <;> cases hE2 : rowHasKey "email" r <;>
        simp [uploadRoute, hN1, hN2, hE1, hE2, createManyContacts] at hok ⊢
  · intro send
    exact ⟨rfl, rfl⟩

/-- Witness for claim C9: the frame property applied to the concrete
upload. -/
theorem c9_validate_contacts_frame_witness :
    (uploadRoute Store.empty [c9Row]).1.contacts =
      Store.empty.contacts ++
        assignIds Store.empty.contacts.length ([c9Row].map rowToInsert) :=
  c9_validate_contacts_frame.1 Store.empty [c9Row]
    { total := 1, valid := 1, invalid := 0, contactIds := ["contact-0"] } rfl

end EliteEmail
